import Mathlib

/-!
Shallow embedding of the warm-transfer orchestration engine of
`attack-cap` (backend/src): the agent and session state machines
(`agents/agent_system.py`, `models/schemas.py`), the LiveKit service layer
(`services/livekit_service.py`) and the FastAPI endpoint compositions
(`main.py`).

External collaborators (LiveKit room creation, LLM summarization and
explanation) are unbounded network calls in the source; here each such call
site takes its outcome as an explicit parameter (`Option String`: `none`
models the raised exception / absent result, `some t` the returned text).
Timestamps are opaque strings passed in by the caller.
-/

/-- `AgentState` from `agents/agent_system.py`. -/
inductive AgentState where
  | IDLE
  | IN_CALL
  | IN_TRANSFER
  | OFFLINE
deriving DecidableEq, Repr

/-- `AgentRole` from `models/schemas.py`. -/
inductive AgentRole where
  | AGENT_A
  | AGENT_B
deriving DecidableEq, Repr

/-- `CallState` from `models/schemas.py`. -/
inductive CallState where
  | WAITING
  | CONNECTED
  | TRANSFERRING
  | TRANSFERRED
  | ENDED
deriving DecidableEq, Repr

/-- `Participant` from `models/schemas.py` (datetime fields are opaque strings). -/
structure Participant where
  identity : String
  name : String
  role : Option AgentRole
  is_agent : Bool
  joined_at : String
  room_sid : String
deriving DecidableEq, Repr

/-- `CallSession` from `models/schemas.py`. -/
structure CallSession where
  session_id : String
  caller_identity : String
  agent_a_identity : Option String
  agent_b_identity : Option String
  original_room_sid : String
  transfer_room_sid : Option String
  state : CallState
  call_summary : Option String
  transfer_reason : Option String
  created_at : String
  participants : List Participant
deriving DecidableEq, Repr

/-- Association-list lookup, mirroring a Python `dict` read (`d.get(k)` /
`k in d` guarded access). Keys are unique by construction of the writes. -/
def alistLookup {β : Type} (k : String) : List (String × β) → Option β
  | [] => none
  | (k1, v) :: rest => if k1 = k then some v else alistLookup k rest

/-- Association-list write, mirroring a Python `dict` assignment `d[k] = v`:
an existing key keeps its position, a new key is appended at the end
(insertion order). -/
def alistPut {β : Type} (k : String) (v : β) : List (String × β) → List (String × β)
  | [] => [(k, v)]
  | (k1, v1) :: rest =>
      if k1 = k then (k1, v) :: rest else (k1, v1) :: alistPut k v rest

/-- The mutable state of `LiveKitService`: the `active_sessions` dict
(`services/livekit_service.py`). API credentials and the aiohttp session are
connection plumbing with no bearing on the orchestration state. -/
structure LiveKitState where
  active_sessions : List (String × CallSession)
deriving DecidableEq, Repr

/-- The LiveKit `VideoGrants` carried by an issued access token; the token
string itself is an opaque JWT, so the credential is modelled by its grant
content. Fields and defaults follow `api.VideoGrants` as used in
`generate_access_token`. -/
structure VideoGrants where
  room_join : Bool
  room : String
  can_publish : Bool
  can_subscribe : Bool
  can_publish_data : Bool
  can_update_own_metadata : Bool
  can_publish_sources : List String
  hidden : Bool
  recorder : Bool
deriving DecidableEq, Repr

namespace LiveKitService

/-- `LiveKitService.generate_access_token` (`services/livekit_service.py`,
lines 57-84): builds the grants; `can_publish_data` and
`can_update_own_metadata` are always set; the agent branch additionally sets
`can_publish_sources`, `hidden = False` and `recorder = True`. -/
def generate_access_token (identity room_name : String) (is_agent : Bool)
    (can_publish can_subscribe : Bool) : VideoGrants :=
  let _ := identity
  let grants : VideoGrants :=
    { room_join := true
      room := room_name
      can_publish := can_publish
      can_subscribe := can_subscribe
      can_publish_data := true
      can_update_own_metadata := true
      can_publish_sources := []
      hidden := false
      recorder := false }
  if is_agent then
    { grants with
        can_publish_sources := ["camera", "microphone", "screen_share"]
        hidden := false
        recorder := true }
  else grants

/-- `LiveKitService.create_call_session`: creates the main room and stores a
fresh `CallSession` in `WAITING` state. `roomResult` is the outcome of the
`create_room` network call (`none` = the call raised; the exception then
propagates and no session is stored). -/
def create_call_session (lk : LiveKitState) (caller_identity agent_a_identity : String)
    (session_id : String) (roomResult : Option String) (ts : String) :
    LiveKitState × Option CallSession :=
  match roomResult with
  | none => (lk, none)
  | some room_sid =>
      let session : CallSession :=
        { session_id := session_id
          caller_identity := caller_identity
          agent_a_identity := some agent_a_identity
          agent_b_identity := none
          original_room_sid := room_sid
          transfer_room_sid := none
          state := CallState.WAITING
          call_summary := none
          transfer_reason := none
          created_at := ts
          participants := [] }
      ({ active_sessions := alistPut session_id session lk.active_sessions }, some session)

/-- `LiveKitService.join_participant`: token generation, participant append,
and the `WAITING → CONNECTED` advance when Agent A joins a waiting session.
An unknown session id raises `ValueError` (result `none`, state untouched). -/
def join_participant (lk : LiveKitState) (session_id identity : String)
    (role : Option AgentRole) (ts : String) : LiveKitState × Option VideoGrants :=
  match alistLookup session_id lk.active_sessions with
  | none => (lk, none)
  | some session =>
      let is_agent := role.isSome
      let token := generate_access_token identity ("call_" ++ session_id) is_agent true true
      let participant : Participant :=
        { identity := identity
          name := identity
          role := role
          is_agent := is_agent
          joined_at := ts
          room_sid := session.original_room_sid }
      let s1 := { session with participants := session.participants ++ [participant] }
      let s2 :=
        if role = some AgentRole.AGENT_A ∧ s1.state = CallState.WAITING then
          { s1 with state := CallState.CONNECTED }
        else s1
      ({ active_sessions := alistPut session_id s2 lk.active_sessions }, some token)

/-- `LiveKitService.initiate_warm_transfer` (lines 153-174): after the
existence check the session is mutated in place (`agent_b_identity`,
`transfer_reason`, `state := TRANSFERRING`) BEFORE the `create_room` call;
when room creation raises (`roomResult = none`) those mutations persist and
the exception propagates (result `none`). -/
def initiate_warm_transfer (lk : LiveKitState) (session_id agent_b_identity : String)
    (transfer_reason : Option String) (roomResult : Option String) :
    LiveKitState × Option String :=
  match alistLookup session_id lk.active_sessions with
  | none => (lk, none)
  | some session =>
      let s1 := { session with
                    agent_b_identity := some agent_b_identity
                    transfer_reason := transfer_reason
                    state := CallState.TRANSFERRING }
      match roomResult with
      | none => ({ active_sessions := alistPut session_id s1 lk.active_sessions }, none)
      | some transfer_room_sid =>
          let s2 := { s1 with transfer_room_sid := some transfer_room_sid }
          ({ active_sessions := alistPut session_id s2 lk.active_sessions },
           some transfer_room_sid)

/-- `LiveKitService.complete_transfer` (lines 207-235): existence and
`agent_b_identity` checks raise before any mutation; the final room is
created and tokens issued before `state := TRANSFERRED` is committed, so a
failed room creation (`roomResult = none`) leaves the session untouched. -/
def complete_transfer (lk : LiveKitState) (session_id : String)
    (roomResult : Option String) : LiveKitState × Option String :=
  match alistLookup session_id lk.active_sessions with
  | none => (lk, none)
  | some session =>
      match session.agent_b_identity with
      | none => (lk, none)
      | some agent_b_identity =>
          match roomResult with
          | none => (lk, none)
          | some final_room_sid =>
              let _ := generate_access_token session.caller_identity
                         ("final_" ++ session_id) false true true
              let _ := generate_access_token agent_b_identity
                         ("final_" ++ session_id) true true true
              let s1 := { session with state := CallState.TRANSFERRED }
              ({ active_sessions := alistPut session_id s1 lk.active_sessions },
               some final_room_sid)

/-- `LiveKitService.end_session` (lines 237-244): only when the session id is
present is its state set to `ENDED`; an unknown id is silently ignored. -/
def end_session (lk : LiveKitState) (session_id : String) : LiveKitState :=
  match alistLookup session_id lk.active_sessions with
  | none => lk
  | some session =>
      { active_sessions :=
          alistPut session_id { session with state := CallState.ENDED }
            lk.active_sessions }

/-- `LiveKitService.get_session`. -/
def get_session (lk : LiveKitState) (session_id : String) : Option CallSession :=
  alistLookup session_id lk.active_sessions

end LiveKitService

/-- One entry of `BaseAgent.conversation_history`
({speaker, content, timestamp}, `agents/agent_system.py` lines 41-47). -/
structure ConvEntry where
  speaker : String
  content : String
  timestamp : String
deriving DecidableEq, Repr

/-- `BaseAgent.add_to_conversation`: append one entry at the end of the
history. -/
def addToConversation (history : List ConvEntry) (speaker content ts : String) :
    List ConvEntry :=
  history ++ [{ speaker := speaker, content := content, timestamp := ts }]

/-- One value of `AgentA.transfer_requests` (lines 141-148): the ephemeral
transfer record stored at phase 1, keyed by session id. `transfer_room_sid`
is the string returned by `initiate_warm_transfer` (only stored on success). -/
structure TransferInfo where
  agent_b_identity : String
  reason : String
  call_summary : String
  transfer_room_sid : String
  initiated_at : String
deriving DecidableEq, Repr

/-- `AgentA` (`agents/agent_system.py` lines 73-210). `role` is fixed to
`AGENT_A` by the constructor. -/
structure AgentA where
  identity : String
  name : String
  state : AgentState
  current_session_id : Option String
  conversation_history : List ConvEntry
  transfer_requests : List (String × TransferInfo)
deriving DecidableEq, Repr

/-- The transfer context stored by `AgentB.receive_transfer_context`
(lines 236-240). -/
structure TransferContext where
  explanation : String
  call_summary : String
  received_at : String
deriving DecidableEq, Repr

/-- `AgentB` (lines 213-294). `role` is fixed to `AGENT_B` by the
constructor. -/
structure AgentB where
  identity : String
  name : String
  specialty : String
  state : AgentState
  current_session_id : Option String
  conversation_history : List ConvEntry
  transfer_context : Option TransferContext
deriving DecidableEq, Repr

namespace AgentA

/-- The greeting `AgentA.handle_incoming_call` records (line 88). -/
def greetingText : String := "Hello! This is Agent A. How can I help you today?"

/-- `AgentA.handle_incoming_call` (lines 80-96): sets `IN_CALL`, records the
session, RESETS `conversation_history` to the empty list, then appends the
greeting. The happy path always returns `True`. -/
def handle_incoming_call (a : AgentA) (session_id ts : String) : AgentA × Bool :=
  let a1 := { a with
                state := AgentState.IN_CALL
                current_session_id := some session_id
                conversation_history := [] }
  let a2 := { a1 with
                conversation_history :=
                  addToConversation a1.conversation_history "Agent A" greetingText ts }
  (a2, true)

/-- The phase-1 fallback summary text (line 132). -/
def placeholderSummary : String := "Customer inquiry requiring specialized assistance"

/-- `BaseAgent.generate_call_summary` as seen by Agent A call sites: the LLM
outcome is the parameter `llmSummary` (`none` models an empty history or a
raised/failed LLM call, both of which return `None` in the source). -/
def generate_call_summary (a : AgentA) (llmSummary : Option String) : Option String :=
  if a.conversation_history = [] then none else llmSummary

/-- `AgentA.initiate_transfer` (lines 116-156). Without a current session:
`None`, nothing changes. Otherwise the agent moves to `IN_TRANSFER`, the
summary falls back to the placeholder when falsy (`None` or the empty
string), and `livekit_service.initiate_warm_transfer` runs; if it raises
(unknown session or failed room creation) the `except` arm rolls the agent to
`IN_CALL` and returns `None` — the service-side session mutations persist.
On success the transfer record is stored under the session id. -/
def initiate_transfer (a : AgentA) (lk : LiveKitState)
    (agent_b_identity reason : String) (llmSummary : Option String)
    (roomResult : Option String) (ts : String) :
    AgentA × LiveKitState × Option String :=
  match a.current_session_id with
  | none => (a, lk, none)
  | some session_id =>
      let a1 := { a with state := AgentState.IN_TRANSFER }
      let call_summary :=
        match generate_call_summary a llmSummary with
        | none => placeholderSummary
        | some t => if t = "" then placeholderSummary else t
      let res := LiveKitService.initiate_warm_transfer lk session_id agent_b_identity
                   (some reason) roomResult
      match res.2 with
      | none => ({ a1 with state := AgentState.IN_CALL }, res.1, none)
      | some transfer_room_sid =>
          let record : TransferInfo :=
            { agent_b_identity := agent_b_identity
              reason := reason
              call_summary := call_summary
              transfer_room_sid := transfer_room_sid
              initiated_at := ts }
          ({ a1 with transfer_requests := alistPut session_id record a1.transfer_requests },
           res.1, some transfer_room_sid)

/-- `AgentA.explain_transfer_to_agent_b` (lines 158-187): requires a transfer
record under the current session id (else `None`, no change); the LLM
explanation call outcome is `llmExplanation` (`none` = raised, caught, `None`
returned with no history append); on success the tagged explanation is
appended to the history. -/
def explain_transfer_to_agent_b (a : AgentA) (agent_b_identity : String)
    (llmExplanation : Option String) (ts : String) : AgentA × Option String :=
  match a.current_session_id with
  | none => (a, none)
  | some session_id =>
      match alistLookup session_id a.transfer_requests with
      | none => (a, none)
      | some _ =>
          match llmExplanation with
          | none => (a, none)
          | some explanation =>
              let a1 := { a with
                            conversation_history :=
                              addToConversation a.conversation_history "Agent A"
                                ("[Transfer explanation to " ++ agent_b_identity ++ "]: "
                                  ++ explanation) ts }
              (a1, some explanation)

/-- `AgentA.complete_transfer` (lines 189-210): only checks
`current_session_id` — the transfer record is NOT consulted and NOT
discarded. When the session is found, its `call_summary` is overwritten with
the fresh `generate_call_summary` result (possibly `None`); the agent then
moves to `IDLE` and clears its session. Returns `False` only when there is no
current session. -/
def complete_transfer (a : AgentA) (lk : LiveKitState) (llmSummary : Option String) :
    AgentA × LiveKitState × Bool :=
  match a.current_session_id with
  | none => (a, lk, false)
  | some session_id =>
      let lk1 :=
        match alistLookup session_id lk.active_sessions with
        | none => lk
        | some session =>
            { active_sessions :=
                alistPut session_id
                  { session with call_summary := generate_call_summary a llmSummary }
                  lk.active_sessions }
      let a1 := { a with
                    state := AgentState.IDLE
                    current_session_id := none }
      (a1, lk1, true)

end AgentA

namespace AgentB

/-- `AgentB.handle_incoming_call` (lines 221-232): sets `IN_CALL` and the
session id; the conversation history is NOT reset. -/
def handle_incoming_call (b : AgentB) (session_id : String) : AgentB × Bool :=
  ({ b with
       state := AgentState.IN_CALL
       current_session_id := some session_id }, true)

/-- The acknowledgment line `AgentB.receive_transfer_context` appends
(line 246). -/
def ackText (b : AgentB) : String :=
  "Thank you Agent A. I\'ll take care of this customer. Hello, I\'m " ++ b.name
    ++ " from " ++ b.specialty
    ++ ". I\'ve been briefed on your situation and I\'m here to help."

/-- `AgentB.receive_transfer_context` (lines 234-249): stores the transfer
context, appends the relayed explanation (speaker "Agent A") and the
acknowledgment (speaker "Agent B") to the history. The agent state is NOT
changed. -/
def receive_transfer_context (b : AgentB) (explanation call_summary ts : String) :
    AgentB :=
  let b1 := { b with
                transfer_context :=
                  some { explanation := explanation
                         call_summary := call_summary
                         received_at := ts } }
  let b2 := { b1 with
                conversation_history :=
                  addToConversation b1.conversation_history "Agent A"
                    ("[Transfer]: " ++ explanation) ts }
  { b2 with
      conversation_history :=
        addToConversation b2.conversation_history "Agent B" (ackText b) ts }

end AgentB

/-- An agent as stored in `AgentManager.agents` (`Dict[str, BaseAgent]`,
runtime type `AgentA` or `AgentB`). -/
inductive Agent where
  | A (a : AgentA)
  | B (b : AgentB)
deriving DecidableEq, Repr

/-- `AgentManager` (lines 297-343): the insertion-ordered agent dict and the
session → agent assignment map. -/
structure AgentManager where
  agents : List (String × Agent)
  agent_assignments : List (String × String)
deriving DecidableEq, Repr

namespace AgentManager

/-- `AgentManager.get_available_agent_a` (lines 313-319): scan the agents in
insertion order and return the first `AgentA` whose state is `IDLE`. A pure
read — no agent state is written. -/
def get_available_agent_a (m : AgentManager) : Option AgentA :=
  go m.agents
where
  go : List (String × Agent) → Option AgentA
    | [] => none
    | (_, Agent.A a) :: rest =>
        if a.state = AgentState.IDLE then some a else go rest
    | (_, Agent.B _) :: rest => go rest

/-- `AgentManager.get_available_agent_b` (lines 321-328): first idle `AgentB`,
optionally requiring an exact specialty match. Also a pure read. -/
def get_available_agent_b (m : AgentManager) (specialty : Option String) :
    Option AgentB :=
  go m.agents
where
  go : List (String × Agent) → Option AgentB
    | [] => none
    | (_, Agent.A _) :: rest => go rest
    | (_, Agent.B b) :: rest =>
        if b.state = AgentState.IDLE ∧ (specialty = none ∨ specialty = some b.specialty)
        then some b else go rest

end AgentManager

/-- The outcome of a FastAPI endpoint: the returned payload, or the HTTP
status of the raised `HTTPException`. The generic `except Exception` arm of
every endpoint re-raises any failure as status 500, so `ValueError`s from the
service layer and `HTTPException`s raised inside the `try` both surface as
500; only code paths outside a `try` (or before it) keep another status. -/
inductive ApiResult (α : Type) where
  | ok (value : α)
  | error (status : Nat)
deriving DecidableEq, Repr

namespace Endpoints

/-- The `explain_transfer` endpoint (`main.py` lines 183-211), after the two
agent lookups: Agent A generates the explanation (appending it to its own
history on success); a falsy explanation (`None` or `""`) raises 500; then
`generate_call_summary` runs again (`llmSummary2`) and Agent B receives
`(explanation, call_summary or "")`. -/
def explain_transfer (a : AgentA) (b : AgentB) (llmExplanation : Option String)
    (llmSummary2 : Option String) (ts : String) :
    AgentA × AgentB × ApiResult (String × Option String) :=
  let r1 := a.explain_transfer_to_agent_b b.identity llmExplanation ts
  match r1.2 with
  | none => (r1.1, b, ApiResult.error 500)
  | some explanation =>
      if explanation = "" then (r1.1, b, ApiResult.error 500)
      else
        let call_summary := AgentA.generate_call_summary a llmSummary2
        let b1 := b.receive_transfer_context explanation (call_summary.getD "") ts
        (r1.1, b1, ApiResult.ok (explanation, call_summary))

/-- The `complete_transfer` endpoint (`main.py` lines 214-238), after the
agent lookup: `agent_a.complete_transfer()` runs first (mutating the agent
when it has a current session), a `False` result raises 500; then
`livekit_service.complete_transfer(session_id)` runs — if it raises, the 500
surfaces but the agent-side mutations already made persist. -/
def complete_transfer (a : AgentA) (lk : LiveKitState) (session_id : String)
    (llmSummary : Option String) (roomResult : Option String) :
    AgentA × LiveKitState × ApiResult String :=
  let r1 := a.complete_transfer lk llmSummary
  match r1 with
  | (a1, lk1, ok) =>
      if ok then
        let r2 := LiveKitService.complete_transfer lk1 session_id roomResult
        match r2.2 with
        | none => (a1, r2.1, ApiResult.error 500)
        | some final_room_sid => (a1, r2.1, ApiResult.ok final_room_sid)
      else (a1, lk1, ApiResult.error 500)

end Endpoints

/-- One orchestrator operation against a fixed session, carrying the outcome
of the external room-creation call where one occurs. These are the four
`LiveKitService` operations that read or write `session.state`. -/
inductive SessionOp where
  | joinOp (identity : String) (role : Option AgentRole) (ts : String)
  | initiateOp (agent_b_identity : String) (transfer_reason : Option String)
      (roomResult : Option String)
  | completeOp (roomResult : Option String)
  | endOp
deriving DecidableEq, Repr

/-- The service-state effect of one operation on session `sid` (the returned
token / room id is dropped; only state evolution is observed). -/
def applySessionOp (lk : LiveKitState) (sid : String) : SessionOp → LiveKitState
  | SessionOp.joinOp identity role ts =>
      (LiveKitService.join_participant lk sid identity role ts).1
  | SessionOp.initiateOp b reason room =>
      (LiveKitService.initiate_warm_transfer lk sid b reason room).1
  | SessionOp.completeOp room =>
      (LiveKitService.complete_transfer lk sid room).1
  | SessionOp.endOp => LiveKitService.end_session lk sid

/-- The session states read back after each operation of a run. -/
def statesOf (lk : LiveKitState) (sid : String) : List SessionOp → List CallState
  | [] => []
  | op :: rest =>
      let lk1 := applySessionOp lk sid op
      (match LiveKitService.get_session lk1 sid with
       | some s => [s.state]
       | none => []) ++ statesOf lk1 sid rest

/-- Collapse stutter: consecutive equal states observed after no-op
operations count as one observation. -/
def dedupConsec : List CallState → List CallState
  | [] => []
  | [a] => [a]
  | a :: b :: rest =>
      if a = b then dedupConsec (b :: rest) else a :: dedupConsec (b :: rest)

/-- Position of a state in the forward order
`WAITING, CONNECTED, TRANSFERRING, TRANSFERRED, ENDED`. -/
def progressOrder : CallState → Nat
  | CallState.WAITING => 0
  | CallState.CONNECTED => 1
  | CallState.TRANSFERRING => 2
  | CallState.TRANSFERRED => 3
  | CallState.ENDED => 4

/-- A trace is legal when strictly increasing in `progressOrder`: exactly the
subsequences of `WAITING, CONNECTED, TRANSFERRING, TRANSFERRED` optionally
terminated by `ENDED`, with no repeat and no backward step. -/
def legalTraceB : List CallState → Bool
  | a :: b :: rest =>
      decide (progressOrder a < progressOrder b) && legalTraceB (b :: rest)
  | _ => true

/-- Adjacent observations either stutter or move strictly forward. -/
def monoB : List CallState → Bool
  | a :: b :: rest =>
      (decide (a = b) || decide (progressOrder a < progressOrder b)) && monoB (b :: rest)
  | _ => true

/-- The protocol guard: `initiate_warm_transfer` is invoked only on a
`CONNECTED` session and `complete_transfer` only on a `TRANSFERRING` one
(the preconditions of phases 1 and 3). `joinOp` and `endOp` carry their own
in-code guards. -/
def guardedB (lk : LiveKitState) (sid : String) : List SessionOp → Bool
  | [] => true
  | op :: rest =>
      (match op with
       | SessionOp.initiateOp _ _ _ =>
           decide ((LiveKitService.get_session lk sid).map CallSession.state
             = some CallState.CONNECTED)
       | SessionOp.completeOp _ =>
           decide ((LiveKitService.get_session lk sid).map CallSession.state
             = some CallState.TRANSFERRING)
       | _ => true) && guardedB (applySessionOp lk sid op) sid rest

/-! ## Concrete fixtures (used by witnesses and counterexamples) -/

/-- A session right after Agent A joined: `CONNECTED`, no transfer yet. -/
def sessionConn : CallSession :=
  { session_id := "s1", caller_identity := "cust1", agent_a_identity := some "a1",
    agent_b_identity := none, original_room_sid := "RM_orig", transfer_room_sid := none,
    state := CallState.CONNECTED, call_summary := none, transfer_reason := none,
    created_at := "t0", participants := [] }

/-- Service state holding only `sessionConn`. -/
def lkConn : LiveKitState := { active_sessions := [("s1", sessionConn)] }

/-- The same session still in `WAITING` (Agent A has not joined). -/
def sessionWaiting : CallSession := { sessionConn with state := CallState.WAITING }

/-- Service state holding only `sessionWaiting`. -/
def lkWaiting : LiveKitState := { active_sessions := [("s1", sessionWaiting)] }

/-- Agent A in call on `s1` after the greeting, with no transfer record. -/
def agentA0 : AgentA :=
  { identity := "a1", name := "Sarah (Agent A)", state := AgentState.IN_CALL,
    current_session_id := some "s1",
    conversation_history :=
      [{ speaker := "Agent A", content := AgentA.greetingText, timestamp := "t0" }],
    transfer_requests := [] }

/-- Agent A mid-transfer on `s1`, holding the phase-1 transfer record. -/
def agentAWithTransfer : AgentA :=
  { agentA0 with
      state := AgentState.IN_TRANSFER
      transfer_requests :=
        [("s1", { agent_b_identity := "b1", reason := "billing", call_summary := "sum",
                  transfer_room_sid := "RM_t", initiated_at := "t1" })] }

/-- An idle billing Agent B. -/
def agentB0 : AgentB :=
  { identity := "b1", name := "Mike (Billing)", specialty := "Billing",
    state := AgentState.IDLE, current_session_id := none,
    conversation_history := [], transfer_context := none }

/-- An idle Agent A as freshly registered. -/
def idleAgentA1 : AgentA :=
  { identity := "agent_a_001", name := "Sarah (Agent A)", state := AgentState.IDLE,
    current_session_id := none, conversation_history := [], transfer_requests := [] }

/-- A manager holding one idle Agent A. -/
def mgr0 : AgentManager :=
  { agents := [("agent_a_001", Agent.A idleAgentA1)], agent_assignments := [] }

/-- A manager holding one idle Agent A and one idle billing Agent B. -/
def mgrAB : AgentManager :=
  { agents := [("agent_a_001", Agent.A idleAgentA1), ("b1", Agent.B agentB0)],
    agent_assignments := [] }

/-! ## Association-list lemmas -/

/-- Reading back the key just written. -/
theorem alistLookup_put_self {β : Type} (k : String) (v : β) :
    ∀ l : List (String × β), alistLookup k (alistPut k v l) = some v := by
  intro l
  induction l with
  | nil => simp [alistPut, alistLookup]
  | cons hd tl ih =>
      obtain ⟨k1, v1⟩ := hd
      by_cases h : k1 = k
      · simp [alistPut, alistLookup, h]
      · simp [alistPut, alistLookup, h, ih]

/-- The transcript grew only at the end: the old transcript is an initial
segment of the new one. This is the append-only property of §3 of the spec. -/
def historyPreserved (old new : List ConvEntry) : Prop :=
  new.take old.length = old

/-! ## Claims -/

/-- C10: for a `session_id` absent from `active_sessions`, `end_session` is a
silent no-op: it raises nothing and returns the service state unchanged (no
session and no agent is touched). -/
theorem C10_end_session_unknown_is_noop (lk : LiveKitState) (sid : String)
    (h : alistLookup sid lk.active_sessions = none) :
    LiveKitService.end_session lk sid = lk := by
  unfold LiveKitService.end_session
  rw [h]

/-- C10 witness: ending an unknown session on an empty store changes
nothing. -/
theorem C10_witness :
    alistLookup "ghost" (LiveKitState.mk []).active_sessions = none ∧
      LiveKitService.end_session (LiveKitState.mk []) "ghost" = LiveKitState.mk [] :=
  ⟨rfl, C10_end_session_unknown_is_noop (LiveKitState.mk []) "ghost" rfl⟩

/-- C6 counterexample: the claim says a "caller"-profile token grants publish
and subscribe only — in particular no data-publishing capability. But
`generate_access_token` sets `can_publish_data := True` unconditionally, so
the caller token issued for `cust1` does carry the data grant. -/
theorem C6_counterexample :
    ¬ ((LiveKitService.generate_access_token "cust1" "room1" false true true).can_publish_data
        = false) := by decide

/-- C6 amended: an agent-profile token grants publish, subscribe, data and
recording; a caller-profile token grants publish, subscribe AND data (the
data grant is unconditional), but no recording capability. -/
theorem C6_token_profiles (identity room : String) :
    (LiveKitService.generate_access_token identity room true true true).can_publish = true ∧
    (LiveKitService.generate_access_token identity room true true true).can_subscribe = true ∧
    (LiveKitService.generate_access_token identity room true true true).can_publish_data = true ∧
    (LiveKitService.generate_access_token identity room true true true).recorder = true ∧
    (LiveKitService.generate_access_token identity room false true true).can_publish = true ∧
    (LiveKitService.generate_access_token identity room false true true).can_subscribe = true ∧
    (LiveKitService.generate_access_token identity room false true true).can_publish_data = true ∧
    (LiveKitService.generate_access_token identity room false true true).recorder = false := by
  simp [LiveKitService.generate_access_token]

/-- C7 counterexample: the claim says that whenever `findAvailable` returns
an agent, that agent has been reserved (is no longer IDLE) by the same
operation. But `get_available_agent_a` is a pure read: on a manager holding
one idle Agent A it returns that agent with its state still `IDLE`, and
nothing in the manager changed, so a second lookup selects the same agent. -/
theorem C7_counterexample :
    AgentManager.get_available_agent_a mgr0 = some idleAgentA1 ∧
      idleAgentA1.state = AgentState.IDLE := by decide

/-- The scan helper of `get_available_agent_a` only ever returns an agent it
just checked to be idle. -/
theorem findIdleA_returns_idle :
    ∀ (l : List (String × Agent)) (a : AgentA),
      AgentManager.get_available_agent_a.go l = some a → a.state = AgentState.IDLE := by
  intro l
  induction l with
  | nil => intro a h; simp [AgentManager.get_available_agent_a.go] at h
  | cons hd tl ih =>
      intro a h
      obtain ⟨k, ag⟩ := hd
      cases ag with
      | A aa =>
          by_cases hs : aa.state = AgentState.IDLE
          · rw [AgentManager.get_available_agent_a.go, if_pos hs] at h
            cases h
            exact hs
          · rw [AgentManager.get_available_agent_a.go, if_neg hs] at h
            exact ih a h
      | B bb =>
          rw [AgentManager.get_available_agent_a.go] at h
          exact ih a h

/-- The scan helper of `get_available_agent_b` only ever returns an agent it
just checked to be idle and, when a specialty is requested, to match it. -/
theorem findIdleB_returns_idle (specialty : Option String) :
    ∀ (l : List (String × Agent)) (b : AgentB),
      AgentManager.get_available_agent_b.go specialty l = some b →
        b.state = AgentState.IDLE ∧
          (specialty = none ∨ specialty = some b.specialty) := by
  intro l
  induction l with
  | nil => intro b h; simp [AgentManager.get_available_agent_b.go] at h
  | cons hd tl ih =>
      intro b h
      obtain ⟨k, ag⟩ := hd
      cases ag with
      | A aa =>
          rw [AgentManager.get_available_agent_b.go] at h
          exact ih b h
      | B bb =>
          by_cases hs : bb.state = AgentState.IDLE ∧
              (specialty = none ∨ specialty = some bb.specialty)
          · rw [AgentManager.get_available_agent_b.go, if_pos hs] at h
            cases h
            exact hs
          · rw [AgentManager.get_available_agent_b.go, if_neg hs] at h
            exact ih b h

/-- C7 amended: both selectors — `get_available_agent_a` (role A) and
`get_available_agent_b` (role B, optional specialty filter) — are pure reads,
not check-and-reserve operations: the agent either returns is still `IDLE`
(and, for role B, matches the requested specialty), no state transition
happened as part of the lookup, and the manager is untouched, so an
immediately repeated lookup selects the very same agent. -/
theorem C7_find_available_is_pure_read (m : AgentManager) :
    (∀ a : AgentA, m.get_available_agent_a = some a →
        a.state = AgentState.IDLE ∧ m.get_available_agent_a = some a) ∧
    (∀ (specialty : Option String) (b : AgentB),
        m.get_available_agent_b specialty = some b →
          b.state = AgentState.IDLE ∧
            (specialty = none ∨ specialty = some b.specialty) ∧
            m.get_available_agent_b specialty = some b) := by
  constructor
  · intro a h
    exact ⟨findIdleA_returns_idle m.agents a h, h⟩
  · intro specialty b h
    obtain ⟨h1, h2⟩ := findIdleB_returns_idle specialty m.agents b h
    exact ⟨h1, h2, h⟩

/-- C7 witness: on `mgrAB` the role-A lookup returns the idle Agent A and the
role-B lookup with specialty "Billing" returns the idle billing Agent B —
both still idle, both matched again by a repeated lookup. -/
theorem C7_witness :
    (idleAgentA1.state = AgentState.IDLE ∧
      AgentManager.get_available_agent_a mgrAB = some idleAgentA1) ∧
    (agentB0.state = AgentState.IDLE ∧
      (some "Billing" = (none : Option String) ∨ some "Billing" = some agentB0.specialty) ∧
      AgentManager.get_available_agent_b mgrAB (some "Billing") = some agentB0) :=
  ⟨(C7_find_available_is_pure_read mgrAB).1 idleAgentA1 (by decide),
   (C7_find_available_is_pure_read mgrAB).2 (some "Billing") agentB0 (by decide)⟩

/-- C2 counterexample: the claim says `initiateTransfer` on a session not in
`CONNECTED` state fails (STATE_VIOLATION) and leaves the session untouched.
But `initiate_warm_transfer` performs no state check: on the `WAITING`
session `s1` it succeeds and mutates the session. -/
theorem C2_counterexample :
    sessionWaiting.state ≠ CallState.CONNECTED ∧
      ¬ ((LiveKitService.initiate_warm_transfer lkWaiting "s1" "b1" (some "billing")
            (some "RM_t")).2 = none ∧
         (LiveKitService.initiate_warm_transfer lkWaiting "s1" "b1" (some "billing")
            (some "RM_t")).1 = lkWaiting) := by decide

/-- C2 amended: `initiate_warm_transfer` validates only existence, never
state: on ANY stored session — whatever its state — it sets
`agent_b_identity`, `transfer_reason` and `state := TRANSFERRING`, creates
the transfer room and returns its sid. Only an unknown session id fails. -/
theorem C2_initiate_ignores_state (lk : LiveKitState) (sid : String) (s : CallSession)
    (b : String) (reason : Option String) (rsid : String)
    (h : alistLookup sid lk.active_sessions = some s) :
    LiveKitService.initiate_warm_transfer lk sid b reason (some rsid)
      = ({ active_sessions :=
             alistPut sid
               { s with agent_b_identity := some b, transfer_reason := reason,
                        state := CallState.TRANSFERRING,
                        transfer_room_sid := some rsid }
               lk.active_sessions },
         some rsid) := by
  unfold LiveKitService.initiate_warm_transfer
  rw [h]

/-- C2 witness: initiating on the `WAITING` session `s1` succeeds and
rewrites it to `TRANSFERRING`. -/
theorem C2_witness :
    alistLookup "s1" lkWaiting.active_sessions = some sessionWaiting ∧
      LiveKitService.initiate_warm_transfer lkWaiting "s1" "b1" (some "billing")
          (some "RM_t")
        = ({ active_sessions :=
               alistPut "s1"
                 { sessionWaiting with agent_b_identity := some "b1",
                                       transfer_reason := some "billing",
                                       state := CallState.TRANSFERRING,
                                       transfer_room_sid := some "RM_t" }
                 lkWaiting.active_sessions },
           some "RM_t") :=
  ⟨by decide,
   C2_initiate_ignores_state lkWaiting "s1" sessionWaiting "b1" (some "billing") "RM_t"
     (by decide)⟩

/-- C3 counterexample: on room-creation failure in phase 1 the claim says the
session is left in its last committed state (`CONNECTED`, no agent_b, no
transfer_reason). Running `initiate_transfer` on `agentA0`/`lkConn` with a
failing room creation: the agent IS rolled back to `IN_CALL` and `None` IS
returned, yet the session was already mutated to `TRANSFERRING` with
`agent_b` and `transfer_reason` set, so the conjunction of the claim fails. -/
theorem C3_counterexample :
    ¬ ((AgentA.initiate_transfer agentA0 lkConn "b1" "billing" (some "sum") none "t1").1.state
         = AgentState.IN_CALL ∧
       (AgentA.initiate_transfer agentA0 lkConn "b1" "billing" (some "sum") none "t1").2.2
         = none ∧
       (AgentA.initiate_transfer agentA0 lkConn "b1" "billing" (some "sum") none "t1").2.1
         = lkConn) := by decide

/-- C3 amended: when room creation fails during phase 1, agent A is rolled
back to `IN_CALL`, the error (`None`) is returned and no transfer record is
stored — but the session is NOT left in its last committed state: it already
carries `agent_b_identity`, `transfer_reason` and `state = TRANSFERRING`
(only `transfer_room_sid` is still unset). -/
theorem C3_room_failure_leaves_session_mutated (a : AgentA) (lk : LiveKitState)
    (sid : String) (s : CallSession) (b reason : String) (summary : Option String)
    (ts : String)
    (hcur : a.current_session_id = some sid)
    (hs : alistLookup sid lk.active_sessions = some s) :
    AgentA.initiate_transfer a lk b reason summary none ts
      = ({ a with state := AgentState.IN_CALL },
         { active_sessions :=
             alistPut sid
               { s with agent_b_identity := some b, transfer_reason := some reason,
                        state := CallState.TRANSFERRING }
               lk.active_sessions },
         none) := by
  simp only [AgentA.initiate_transfer, LiveKitService.initiate_warm_transfer, hcur, hs]

/-- C3 witness: the amended behavior at the concrete fixture. -/
theorem C3_witness :
    agentA0.current_session_id = some "s1" ∧
      alistLookup "s1" lkConn.active_sessions = some sessionConn ∧
      AgentA.initiate_transfer agentA0 lkConn "b1" "billing" (some "sum") none "t1"
        = ({ agentA0 with state := AgentState.IN_CALL },
           { active_sessions :=
               alistPut "s1"
                 { sessionConn with agent_b_identity := some "b1",
                                    transfer_reason := some "billing",
                                    state := CallState.TRANSFERRING }
                 lkConn.active_sessions },
           none) :=
  ⟨by decide, by decide,
   C3_room_failure_leaves_session_mutated agentA0 lkConn "s1" sessionConn "b1" "billing"
     (some "sum") "t1" (by decide) (by decide)⟩

/-- C1 counterexample: with no transfer record for `s1` (and hence no
`agent_b` on the session), the claim says `completeTransfer` fails with
NOT_FOUND (404) leaving agent and session unchanged. Running the endpoint on
`agentA0`/`lkConn`: the failure surfaces as 500, and agent A has already been
mutated (state `IDLE`, `current_session_id` cleared). -/
theorem C1_counterexample :
    ¬ ((Endpoints.complete_transfer agentA0 lkConn "s1" none none).2.2
         = ApiResult.error 404 ∧
       (Endpoints.complete_transfer agentA0 lkConn "s1" none none).1 = agentA0 ∧
       (Endpoints.complete_transfer agentA0 lkConn "s1" none none).2.1 = lkConn) := by
  decide

/-- C1 amended: `AgentA.complete_transfer` never consults the transfer
record. With a current session whose stored `CallSession` has no `agent_b`
(no `initiateTransfer` ever succeeded), the endpoint still mutates agent A to
`IDLE` with `current_session_id` cleared and refreshes the session's
`call_summary`, and only then fails — with status 500, not NOT_FOUND. The
session's state is unchanged by the failed call; the agent's is not. -/
theorem C1_complete_without_record (a : AgentA) (lk : LiveKitState) (sid : String)
    (s : CallSession) (summary roomResult : Option String)
    (hcur : a.current_session_id = some sid)
    (hs : alistLookup sid lk.active_sessions = some s)
    (hb : s.agent_b_identity = none) :
    Endpoints.complete_transfer a lk sid summary roomResult
      = ({ a with state := AgentState.IDLE, current_session_id := none },
         { active_sessions :=
             alistPut sid { s with call_summary := AgentA.generate_call_summary a summary }
               lk.active_sessions },
         ApiResult.error 500) := by
  simp only [Endpoints.complete_transfer, AgentA.complete_transfer,
    LiveKitService.complete_transfer, hcur, hs, alistLookup_put_self, hb, if_true]

/-- C1 witness: the amended behavior at the concrete fixture. -/
theorem C1_witness :
    agentA0.current_session_id = some "s1" ∧
      alistLookup "s1" lkConn.active_sessions = some sessionConn ∧
      sessionConn.agent_b_identity = none ∧
      Endpoints.complete_transfer agentA0 lkConn "s1" none none
        = ({ agentA0 with state := AgentState.IDLE, current_session_id := none },
           { active_sessions :=
               alistPut "s1"
                 { sessionConn with
                     call_summary := AgentA.generate_call_summary agentA0 none }
                 lkConn.active_sessions },
           ApiResult.error 500) :=
  ⟨by decide, by decide, by decide,
   C1_complete_without_record agentA0 lkConn "s1" sessionConn none none
     (by decide) (by decide) (by decide)⟩

/-- C5 counterexample: the claim says the TransferRecord is discarded on a
successful `completeTransfer`. Running the full pipeline (successful
initiate, then successful complete) on the fixtures: the completion succeeds,
agent A is `IDLE` with its session cleared and the session is `TRANSFERRED` —
but `transfer_requests` still holds the record for `s1`, so the conjunction
of the claim fails. -/
theorem C5_counterexample :
    ¬ ((Endpoints.complete_transfer
          (AgentA.initiate_transfer agentA0 lkConn "b1" "billing" (some "sum") (some "RM_t") "t1").1
          (AgentA.initiate_transfer agentA0 lkConn "b1" "billing" (some "sum") (some "RM_t") "t1").2.1
          "s1" (some "sum2") (some "RM_f")).2.2 = ApiResult.ok "RM_f" ∧
       alistLookup "s1"
         (Endpoints.complete_transfer
            (AgentA.initiate_transfer agentA0 lkConn "b1" "billing" (some "sum") (some "RM_t") "t1").1
            (AgentA.initiate_transfer agentA0 lkConn "b1" "billing" (some "sum") (some "RM_t") "t1").2.1
            "s1" (some "sum2") (some "RM_f")).1.transfer_requests = none) := by decide

/-- C5 amended: after a successful phase 1 followed by a successful phase 3,
agent A is `IDLE` with `current_session_id` cleared, the session is
`TRANSFERRED` and its `agent_b_identity` is the identity passed to
`initiate_transfer` — but the TransferRecord is NOT discarded: it is still
stored in `transfer_requests` under the session id. -/
theorem C5_complete_transfer_success (a : AgentA) (lk : LiveKitState) (sid : String)
    (s : CallSession) (b reason : String) (sum1 sum2 : Option String)
    (rsid froom ts : String)
    (hcur : a.current_session_id = some sid)
    (hs : alistLookup sid lk.active_sessions = some s) :
    (Endpoints.complete_transfer
        (AgentA.initiate_transfer a lk b reason sum1 (some rsid) ts).1
        (AgentA.initiate_transfer a lk b reason sum1 (some rsid) ts).2.1
        sid sum2 (some froom)).2.2 = ApiResult.ok froom ∧
    (Endpoints.complete_transfer
        (AgentA.initiate_transfer a lk b reason sum1 (some rsid) ts).1
        (AgentA.initiate_transfer a lk b reason sum1 (some rsid) ts).2.1
        sid sum2 (some froom)).1.state = AgentState.IDLE ∧
    (Endpoints.complete_transfer
        (AgentA.initiate_transfer a lk b reason sum1 (some rsid) ts).1
        (AgentA.initiate_transfer a lk b reason sum1 (some rsid) ts).2.1
        sid sum2 (some froom)).1.current_session_id = none ∧
    (alistLookup sid
        (Endpoints.complete_transfer
            (AgentA.initiate_transfer a lk b reason sum1 (some rsid) ts).1
            (AgentA.initiate_transfer a lk b reason sum1 (some rsid) ts).2.1
            sid sum2 (some froom)).2.1.active_sessions).map CallSession.state
      = some CallState.TRANSFERRED ∧
    (alistLookup sid
        (Endpoints.complete_transfer
            (AgentA.initiate_transfer a lk b reason sum1 (some rsid) ts).1
            (AgentA.initiate_transfer a lk b reason sum1 (some rsid) ts).2.1
            sid sum2 (some froom)).2.1.active_sessions).map CallSession.agent_b_identity
      = some (some b) ∧
    (alistLookup sid
        (Endpoints.complete_transfer
            (AgentA.initiate_transfer a lk b reason sum1 (some rsid) ts).1
            (AgentA.initiate_transfer a lk b reason sum1 (some rsid) ts).2.1
            sid sum2 (some froom)).1.transfer_requests) ≠ none := by
  simp only [AgentA.initiate_transfer, LiveKitService.initiate_warm_transfer,
    Endpoints.complete_transfer, AgentA.complete_transfer,
    LiveKitService.complete_transfer, hcur, hs, alistLookup_put_self]
  simp [Option.map, alistLookup_put_self]

/-- C5 witness: the amended behavior at the concrete fixture. -/
theorem C5_witness :
    agentA0.current_session_id = some "s1" ∧
      alistLookup "s1" lkConn.active_sessions = some sessionConn ∧
      ((Endpoints.complete_transfer
          (AgentA.initiate_transfer agentA0 lkConn "b1" "billing" (some "sum") (some "RM_t") "t1").1
          (AgentA.initiate_transfer agentA0 lkConn "b1" "billing" (some "sum") (some "RM_t") "t1").2.1
          "s1" (some "sum2") (some "RM_f")).2.2 = ApiResult.ok "RM_f" ∧
       (Endpoints.complete_transfer
          (AgentA.initiate_transfer agentA0 lkConn "b1" "billing" (some "sum") (some "RM_t") "t1").1
          (AgentA.initiate_transfer agentA0 lkConn "b1" "billing" (some "sum") (some "RM_t") "t1").2.1
          "s1" (some "sum2") (some "RM_f")).1.state = AgentState.IDLE ∧
       (Endpoints.complete_transfer
          (AgentA.initiate_transfer agentA0 lkConn "b1" "billing" (some "sum") (some "RM_t") "t1").1
          (AgentA.initiate_transfer agentA0 lkConn "b1" "billing" (some "sum") (some "RM_t") "t1").2.1
          "s1" (some "sum2") (some "RM_f")).1.current_session_id = none ∧
       (alistLookup "s1"
          (Endpoints.complete_transfer
              (AgentA.initiate_transfer agentA0 lkConn "b1" "billing" (some "sum") (some "RM_t") "t1").1
              (AgentA.initiate_transfer agentA0 lkConn "b1" "billing" (some "sum") (some "RM_t") "t1").2.1
              "s1" (some "sum2") (some "RM_f")).2.1.active_sessions).map CallSession.state
         = some CallState.TRANSFERRED ∧
       (alistLookup "s1"
          (Endpoints.complete_transfer
              (AgentA.initiate_transfer agentA0 lkConn "b1" "billing" (some "sum") (some "RM_t") "t1").1
              (AgentA.initiate_transfer agentA0 lkConn "b1" "billing" (some "sum") (some "RM_t") "t1").2.1
              "s1" (some "sum2") (some "RM_f")).2.1.active_sessions).map CallSession.agent_b_identity
         = some (some "b1") ∧
       (alistLookup "s1"
          (Endpoints.complete_transfer
              (AgentA.initiate_transfer agentA0 lkConn "b1" "billing" (some "sum") (some "RM_t") "t1").1
              (AgentA.initiate_transfer agentA0 lkConn "b1" "billing" (some "sum") (some "RM_t") "t1").2.1
              "s1" (some "sum2") (some "RM_f")).1.transfer_requests) ≠ none) :=
  ⟨by decide, by decide,
   C5_complete_transfer_success agentA0 lkConn "s1" sessionConn "b1" "billing"
     (some "sum") (some "sum2") "RM_t" "RM_f" "t1" (by decide) (by decide)⟩

/-- C4 counterexample: the claim says a successful `explainTransfer` moves
agent B to `IN_CALL`. Running the endpoint on the mid-transfer fixture with a
successful LLM explanation: the call succeeds (explanation delivered,
context stored) yet agent B — idle before the call — is still `IDLE`:
nothing in `receive_transfer_context` or the endpoint touches its state. -/
theorem C4_counterexample :
    (Endpoints.explain_transfer agentAWithTransfer agentB0 (some "Expl") (some "sum2")
        "t2").2.2 = ApiResult.ok ("Expl", some "sum2") ∧
      ¬ ((Endpoints.explain_transfer agentAWithTransfer agentB0 (some "Expl") (some "sum2")
            "t2").2.1.state = AgentState.IN_CALL) := by decide

/-- C4 amended: on a successful `explainTransfer` the explanation is appended
to agent A's transcript tagged as a transfer note, agent B stores
`(explanation, summary)` as `transfer_context` and appends the relayed
explanation plus its acknowledgment line to its own transcript — but agent
B's state is left exactly as it was: no transition to `IN_CALL` happens. -/
theorem C4_explain_success (a : AgentA) (b : AgentB) (sid expl : String)
    (info : TransferInfo) (sum2 : Option String) (ts : String)
    (hcur : a.current_session_id = some sid)
    (hrec : alistLookup sid a.transfer_requests = some info)
    (hne : ¬ (expl = "")) :
    (Endpoints.explain_transfer a b (some expl) sum2 ts).2.2
        = ApiResult.ok (expl, AgentA.generate_call_summary a sum2) ∧
    (Endpoints.explain_transfer a b (some expl) sum2 ts).1.conversation_history
        = a.conversation_history
            ++ [{ speaker := "Agent A",
                  content := "[Transfer explanation to " ++ b.identity ++ "]: " ++ expl,
                  timestamp := ts }] ∧
    (Endpoints.explain_transfer a b (some expl) sum2 ts).2.1.transfer_context
        = some { explanation := expl,
                 call_summary := (AgentA.generate_call_summary a sum2).getD "",
                 received_at := ts } ∧
    (Endpoints.explain_transfer a b (some expl) sum2 ts).2.1.conversation_history
        = b.conversation_history
            ++ [{ speaker := "Agent A", content := "[Transfer]: " ++ expl, timestamp := ts },
                { speaker := "Agent B", content := AgentB.ackText b, timestamp := ts }] ∧
    (Endpoints.explain_transfer a b (some expl) sum2 ts).2.1.state = b.state := by
  simp only [Endpoints.explain_transfer, AgentA.explain_transfer_to_agent_b,
    AgentB.receive_transfer_context, addToConversation, hcur, hrec, if_neg hne]
  simp [List.append_assoc]

/-- C4 witness: the amended behavior at the concrete fixture. -/
theorem C4_witness :
    agentAWithTransfer.current_session_id = some "s1" ∧
      (∃ info, alistLookup "s1" agentAWithTransfer.transfer_requests = some info) ∧
      ¬ ("Expl" = "") ∧
      ((Endpoints.explain_transfer agentAWithTransfer agentB0 (some "Expl") (some "sum2")
            "t2").2.2
          = ApiResult.ok ("Expl", AgentA.generate_call_summary agentAWithTransfer (some "sum2")) ∧
       (Endpoints.explain_transfer agentAWithTransfer agentB0 (some "Expl") (some "sum2")
            "t2").1.conversation_history
          = agentAWithTransfer.conversation_history
              ++ [{ speaker := "Agent A",
                    content := "[Transfer explanation to " ++ agentB0.identity ++ "]: " ++ "Expl",
                    timestamp := "t2" }] ∧
       (Endpoints.explain_transfer agentAWithTransfer agentB0 (some "Expl") (some "sum2")
            "t2").2.1.transfer_context
          = some { explanation := "Expl",
                   call_summary := (AgentA.generate_call_summary agentAWithTransfer (some "sum2")).getD "",
                   received_at := "t2" } ∧
       (Endpoints.explain_transfer agentAWithTransfer agentB0 (some "Expl") (some "sum2")
            "t2").2.1.conversation_history
          = agentB0.conversation_history
              ++ [{ speaker := "Agent A", content := "[Transfer]: " ++ "Expl", timestamp := "t2" },
                  { speaker := "Agent B", content := AgentB.ackText agentB0, timestamp := "t2" }] ∧
       (Endpoints.explain_transfer agentAWithTransfer agentB0 (some "Expl") (some "sum2")
            "t2").2.1.state = agentB0.state) :=
  ⟨by decide, ⟨_, rfl⟩, by decide,
   C4_explain_success agentAWithTransfer agentB0 "s1" "Expl"
     { agent_b_identity := "b1", reason := "billing", call_summary := "sum",
       transfer_room_sid := "RM_t", initiated_at := "t1" }
     (some "sum2") "t2" (by decide) (by decide) (by decide)⟩

/-- C9 counterexample: the claim says no operation — in particular accepting
an incoming call — ever removes previously recorded transcript entries. But
`AgentA.handle_incoming_call` resets `conversation_history` to the empty list
before appending the greeting: the prior entry of `agentA0` (recorded at
`t0`) is gone from the new transcript. -/
theorem C9_counterexample :
    ¬ historyPreserved agentA0.conversation_history
        ((AgentA.handle_incoming_call agentA0 "s2" "t9").1.conversation_history) := by
  unfold historyPreserved
  decide

/-- C9 amended: every transcript operation except `AgentA.handle_incoming_call`
is append-only — `add_to_conversation` appends one entry,
`AgentB.handle_incoming_call` leaves the transcript untouched,
`AgentB.receive_transfer_context` appends two entries, and
`AgentA.explain_transfer_to_agent_b` appends at most one — while
`AgentA.handle_incoming_call` REPLACES the transcript with the single
greeting entry, discarding whatever was recorded before. -/
theorem C9_transcript_append_only_except_agentA_reset :
    (∀ (h : List ConvEntry) (sp c ts : String),
        historyPreserved h (addToConversation h sp c ts)) ∧
    (∀ (b : AgentB) (sid : String),
        historyPreserved b.conversation_history
          ((AgentB.handle_incoming_call b sid).1.conversation_history)) ∧
    (∀ (b : AgentB) (e cs ts : String),
        historyPreserved b.conversation_history
          ((AgentB.receive_transfer_context b e cs ts).conversation_history)) ∧
    (∀ (a : AgentA) (bid : String) (llm : Option String) (ts : String),
        historyPreserved a.conversation_history
          ((AgentA.explain_transfer_to_agent_b a bid llm ts).1.conversation_history)) ∧
    (∀ (a : AgentA) (sid ts : String),
        (AgentA.handle_incoming_call a sid ts).1.conversation_history
          = [{ speaker := "Agent A", content := AgentA.greetingText, timestamp := ts }]) := by
  refine ⟨?_, ?_, ?_, ?_, ?_⟩
  · intro h sp c ts
    simp [historyPreserved, addToConversation, List.take_left]
  · intro b sid
    simp [historyPreserved, AgentB.handle_incoming_call]
  · intro b e cs ts
    simp [historyPreserved, AgentB.receive_transfer_context, addToConversation,
      List.append_assoc, List.take_left]
  · intro a bid llm ts
    unfold AgentA.explain_transfer_to_agent_b
    cases hcur : a.current_session_id with
    | none => simp [historyPreserved]
    | some sid =>
        cases hrec : alistLookup sid a.transfer_requests with
        | none => simp [historyPreserved, hrec]
        | some info =>
            cases llm with
            | none => simp [historyPreserved, hrec]
            | some e => simp [historyPreserved, hrec, addToConversation, List.take_left]
  · intro a sid ts
    simp [AgentA.handle_incoming_call, addToConversation]

/-- Looking up the lone key of a one-entry store. -/
theorem alistLookup_singleton (sid : String) (s : CallSession) :
    alistLookup sid [(sid, s)] = some s := by simp [alistLookup]

/-- Writing the lone key of a one-entry store. -/
theorem alistPut_singleton (sid : String) (s v : CallSession) :
    alistPut sid v [(sid, s)] = [(sid, v)] := by simp [alistPut]

/-- Deduplication keeps the head of a nonempty trace. -/
theorem dedupConsec_cons_head :
    ∀ (rest : List CallState) (b : CallState), ∃ t, dedupConsec (b :: rest) = b :: t := by
  intro rest
  induction rest with
  | nil => intro b; exact ⟨[], rfl⟩
  | cons c rest' ih =>
      intro b
      by_cases h : b = c
      · subst h
        obtain ⟨t, ht⟩ := ih b
        exact ⟨t, by simp [dedupConsec, ht]⟩
      · exact ⟨dedupConsec (c :: rest'), by simp [dedupConsec, h]⟩

/-- A stutter-or-strictly-forward raw trace deduplicates to a legal trace. -/
theorem monoB_legalTraceB :
    ∀ l : List CallState, monoB l = true → legalTraceB (dedupConsec l) = true := by
  intro l
  induction l with
  | nil => intro _; rfl
  | cons a t ih =>
      cases t with
      | nil => intro _; rfl
      | cons b rest =>
          intro h
          simp only [monoB, Bool.and_eq_true, Bool.or_eq_true, decide_eq_true_eq] at h
          obtain ⟨h1, h2⟩ := h
          have hleg := ih h2
          by_cases hab : a = b
          · simpa [dedupConsec, hab] using hleg
          · obtain ⟨tl, htl⟩ := dedupConsec_cons_head rest b
            rw [htl] at hleg
            simp only [dedupConsec, if_neg hab, htl, legalTraceB, Bool.and_eq_true,
              decide_eq_true_eq]
            refine ⟨?_, hleg⟩
            rcases h1 with h1 | h1
            · exact absurd h1 hab
            · exact h1

/-- Unfolding one run step once the post-state store is known. -/
theorem statesOf_cons (lk : LiveKitState) (sid : String) (op : SessionOp)
    (rest : List SessionOp) (s1 : CallSession)
    (h1 : (applySessionOp lk sid op).active_sessions = [(sid, s1)]) :
    statesOf lk sid (op :: rest)
      = s1.state :: statesOf (applySessionOp lk sid op) sid rest := by
  simp [statesOf, LiveKitService.get_session, h1, alistLookup_singleton]

/-- `join_participant` keeps the store a singleton and either stutters or
advances `WAITING → CONNECTED`. -/
theorem step_joinOp (lk : LiveKitState) (sid : String) (s : CallSession)
    (hstore : lk.active_sessions = [(sid, s)]) (identity : String)
    (role : Option AgentRole) (ts : String) :
    ∃ s1, (applySessionOp lk sid (SessionOp.joinOp identity role ts)).active_sessions
        = [(sid, s1)] ∧
      (s.state = s1.state ∨ progressOrder s.state < progressOrder s1.state) := by
  simp only [applySessionOp, LiveKitService.join_participant, hstore, alistLookup_singleton]
  by_cases hcond : role = some AgentRole.AGENT_A ∧ s.state = CallState.WAITING
  · refine ⟨_, alistPut_singleton sid s _, Or.inr ?_⟩
    rw [if_pos hcond, hcond.2]
    show progressOrder CallState.WAITING < progressOrder CallState.CONNECTED
    decide
  · refine ⟨_, alistPut_singleton sid s _, Or.inl ?_⟩
    rw [if_neg hcond]

/-- `initiate_warm_transfer` on a `CONNECTED` session keeps the store a
singleton and advances to `TRANSFERRING` (also when room creation fails). -/
theorem step_initiateOp (lk : LiveKitState) (sid : String) (s : CallSession)
    (hstore : lk.active_sessions = [(sid, s)]) (b : String) (r room : Option String)
    (hsc : s.state = CallState.CONNECTED) :
    ∃ s1, (applySessionOp lk sid (SessionOp.initiateOp b r room)).active_sessions
        = [(sid, s1)] ∧
      (s.state = s1.state ∨ progressOrder s.state < progressOrder s1.state) := by
  simp only [applySessionOp, LiveKitService.initiate_warm_transfer, hstore,
    alistLookup_singleton]
  cases room with
  | none =>
      refine ⟨_, alistPut_singleton sid s _, Or.inr ?_⟩
      rw [hsc]
      show progressOrder CallState.CONNECTED < progressOrder CallState.TRANSFERRING
      decide
  | some rsid =>
      refine ⟨_, alistPut_singleton sid s _, Or.inr ?_⟩
      rw [hsc]
      show progressOrder CallState.CONNECTED < progressOrder CallState.TRANSFERRING
      decide

/-- `complete_transfer` on a `TRANSFERRING` session keeps the store a
singleton and either fails without mutation or advances to `TRANSFERRED`. -/
theorem step_completeOp (lk : LiveKitState) (sid : String) (s : CallSession)
    (hstore : lk.active_sessions = [(sid, s)]) (room : Option String)
    (hsc : s.state = CallState.TRANSFERRING) :
    ∃ s1, (applySessionOp lk sid (SessionOp.completeOp room)).active_sessions
        = [(sid, s1)] ∧
      (s.state = s1.state ∨ progressOrder s.state < progressOrder s1.state) := by
  simp only [applySessionOp, LiveKitService.complete_transfer, hstore, alistLookup_singleton]
  cases hb : s.agent_b_identity with
  | none => exact ⟨s, by simp [hstore], Or.inl rfl⟩
  | some bId =>
      cases room with
      | none => exact ⟨s, by simp [hstore], Or.inl rfl⟩
      | some froom =>
          refine ⟨_, alistPut_singleton sid s _, Or.inr ?_⟩
          rw [hsc]
          show progressOrder CallState.TRANSFERRING < progressOrder CallState.TRANSFERRED
          decide

/-- `end_session` keeps the store a singleton and either stutters (already
`ENDED`) or jumps forward to `ENDED`. -/
theorem step_endOp (lk : LiveKitState) (sid : String) (s : CallSession)
    (hstore : lk.active_sessions = [(sid, s)]) :
    ∃ s1, (applySessionOp lk sid SessionOp.endOp).active_sessions = [(sid, s1)] ∧
      (s.state = s1.state ∨ progressOrder s.state < progressOrder s1.state) := by
  simp only [applySessionOp, LiveKitService.end_session, hstore, alistLookup_singleton]
  refine ⟨_, alistPut_singleton sid s _, ?_⟩
  by_cases hE : s.state = CallState.ENDED
  · exact Or.inl hE
  · refine Or.inr ?_
    cases hx : s.state <;> simp_all [progressOrder]

/-- Under the phase guards, every run step stutters or moves strictly
forward, so the raw observation list is monotone. -/
theorem monoB_of_guarded :
    ∀ (ops : List SessionOp) (sid : String) (s : CallSession) (lk : LiveKitState),
      lk.active_sessions = [(sid, s)] → guardedB lk sid ops = true →
      monoB (s.state :: statesOf lk sid ops) = true := by
  intro ops
  induction ops with
  | nil => intro sid s lk _ _; rfl
  | cons op rest ih =>
      intro sid s lk hstore hg
      simp only [guardedB, Bool.and_eq_true] at hg
      obtain ⟨hg1, hg2⟩ := hg
      have hstep : ∃ s1, (applySessionOp lk sid op).active_sessions = [(sid, s1)] ∧
          (s.state = s1.state ∨ progressOrder s.state < progressOrder s1.state) := by
        cases op with
        | joinOp identity role ts => exact step_joinOp lk sid s hstore identity role ts
        | initiateOp b r room =>
            have hsc : s.state = CallState.CONNECTED := by
              simp [LiveKitService.get_session, hstore, alistLookup_singleton] at hg1
              exact hg1
            exact step_initiateOp lk sid s hstore b r room hsc
        | completeOp room =>
            have hsc : s.state = CallState.TRANSFERRING := by
              simp [LiveKitService.get_session, hstore, alistLookup_singleton] at hg1
              exact hg1
            exact step_completeOp lk sid s hstore room hsc
        | endOp => exact step_endOp lk sid s hstore
      obtain ⟨s1, hstore1, hrel⟩ := hstep
      rw [statesOf_cons lk sid op rest s1 hstore1]
      have htail := ih sid s1 (applySessionOp lk sid op) hstore1 hg2
      simp only [monoB, Bool.and_eq_true, Bool.or_eq_true, decide_eq_true_eq]
      exact ⟨hrel, htail⟩

/-- C8 counterexample: the claim quantifies over EVERY sequence of
orchestrator operations, but `initiate_warm_transfer` performs no state
validation: after `end_session` the sequence `[endOp, initiateOp …]` drives
the session `WAITING → ENDED → TRANSFERRING`, a backward transition out of
the terminal state, so the observed trace is not legal. -/
theorem C8_counterexample :
    legalTraceB (dedupConsec (sessionWaiting.state ::
        statesOf lkWaiting "s1"
          [SessionOp.endOp, SessionOp.initiateOp "b1" (some "r") (some "RM_t")])) = false := by
  decide

/-- C8 amended: restricted to runs that respect the phase preconditions —
`initiate_warm_transfer` invoked only on a `CONNECTED` session,
`complete_transfer` only on a `TRANSFERRING` one (`guardedB`) — the observed
state sequence of a session is a subsequence of
`WAITING, CONNECTED, TRANSFERRING, TRANSFERRED` optionally terminated by
`ENDED`, with no repeat and no backward transition (`legalTraceB`). Without
the guard hypothesis the property fails (see the counterexample). -/
theorem C8_guarded_traces_legal (sid : String) (s : CallSession) (lk : LiveKitState)
    (ops : List SessionOp)
    (hstore : lk.active_sessions = [(sid, s)])
    (hg : guardedB lk sid ops = true) :
    legalTraceB (dedupConsec (s.state :: statesOf lk sid ops)) = true :=
  monoB_legalTraceB _ (monoB_of_guarded ops sid s lk hstore hg)

/-- C8 witness: the guarded happy-path run join → initiate → complete → end
observes the legal trace `WAITING, CONNECTED, TRANSFERRING, TRANSFERRED,
ENDED`. -/
theorem C8_witness :
    lkWaiting.active_sessions = [("s1", sessionWaiting)] ∧
      guardedB lkWaiting "s1"
          [SessionOp.joinOp "a1" (some AgentRole.AGENT_A) "t1",
           SessionOp.initiateOp "b1" (some "billing") (some "RM_t"),
           SessionOp.completeOp (some "RM_f"), SessionOp.endOp] = true ∧
      legalTraceB (dedupConsec (sessionWaiting.state ::
          statesOf lkWaiting "s1"
            [SessionOp.joinOp "a1" (some AgentRole.AGENT_A) "t1",
             SessionOp.initiateOp "b1" (some "billing") (some "RM_t"),
             SessionOp.completeOp (some "RM_f"), SessionOp.endOp])) = true :=
  ⟨by decide, by decide,
   C8_guarded_traces_legal "s1" sessionWaiting lkWaiting
     [SessionOp.joinOp "a1" (some AgentRole.AGENT_A) "t1",
      SessionOp.initiateOp "b1" (some "billing") (some "RM_t"),
      SessionOp.completeOp (some "RM_f"), SessionOp.endOp]
     (by decide) (by decide)⟩
